import Mathlib

/-!
Shallow embedding of the reconnecting WebSocket connection manager implemented in
src/src/ts/components/ReconnectingWebSocket.tsx.  That file contains two variants
of the component; the embedding below follows the second variant (the one that
tracks everConnectedRef and gates retries with shouldAttemptReconnection), which
is the variant the spec describes in detail.  Where the first variant or
src/src/ts/components/ReconnectWebSocket.tsx differ, comments point it out.

Modelling conventions:
- the manager state (MState) mirrors the React refs of the component
  (wsRef, reconnectAttemptsRef, forcedCloseRef, timedOutRef,
  isReconnectAttemptRef, everConnectedRef, connectionTimeoutRef,
  reconnectTimeoutRef, currentReadyStateRef);
- WebSocket instances are identified by allocation order (the nextId counter);
  url values are opaque identifiers (the code never inspects the url string
  beyond truthiness);
- timers are modelled by their armed status: connectionTimeout holds the id of
  the socket the handshake watchdog guards, reconnectTimeout holds the delay the
  retry timer was armed with; a cleared (none) timer can no longer fire, which
  is exactly what clearTimeout guarantees on the JS event loop;
- every safeSetProps call is recorded as one Eff.report per property it sets,
  in source order; transport operations (new WebSocket, ws.send, ws.close) are
  recorded as wsNew / wsSend / wsClose effects;
- the single threaded JS event loop is modelled by letting each callback run
  atomically.  A call to ws.close only requests closure: per the WHATWG
  WebSocket semantics the close event is fired from a later event loop task, so
  forcing a socket closed is a wsClose effect and the matching onClose step is a
  separate, later step.  This ordering is load bearing for the handshake
  timeout analysis.
-/

namespace RWS

/-- ReadyState mirrors the WebSocket readyState constants the code branches on
(WebSocket.CONNECTING, WebSocket.OPEN, WebSocket.CLOSED). -/
inductive ReadyState
  | CONNECTING
  | OPEN
  | CLOSED
deriving DecidableEq

/-- Settings mirrors the Required ReconnectingWebSocketOptions record built at
component start (debug, automaticOpen and binaryType are omitted: debug only
controls console logging, automaticOpen only gates the mount effect, and
binaryType is a pass-through transport hint). -/
structure Settings where
  reconnectInterval : Rat
  maxReconnectInterval : Rat
  reconnectDecay : Rat
  timeoutInterval : Rat
  maxReconnectAttempts : Option Nat
deriving DecidableEq

/-- Default settings of the component (reconnectInterval 1000,
maxReconnectInterval 30000, reconnectDecay 1.5, timeoutInterval 2000,
maxReconnectAttempts null). -/
def defaultSettings : Settings where
  reconnectInterval := 1000
  maxReconnectInterval := 30000
  reconnectDecay := 3 / 2
  timeoutInterval := 2000
  maxReconnectAttempts := none

/-- MState mirrors the mutable refs of the component.  nextId is the allocator
for fresh WebSocket instance identities. -/
structure MState where
  wsRef : Option Nat
  reconnectAttempts : Nat
  forcedClose : Bool
  timedOut : Bool
  isReconnectAttempt : Bool
  everConnected : Bool
  connectionTimeout : Option Nat
  reconnectTimeout : Option Rat
  currentReadyState : ReadyState
  nextId : Nat
deriving DecidableEq

/-- State of the component right after construction: all refs at their
useRef initial values. -/
def initialState : MState where
  wsRef := none
  reconnectAttempts := 0
  forcedClose := false
  timedOut := false
  isReconnectAttempt := false
  everConnected := false
  connectionTimeout := none
  reconnectTimeout := none
  currentReadyState := ReadyState.CLOSED
  nextId := 0

/-- One property written by a safeSetProps call, as the Observer sees it.
stateClosed true is the terminal close annotated with reconnectionStopped and
the exhaustion reason; stateClosed false is the plain terminal close of a
forced shutdown; stateCloseInterim is the close event reported with readyState
CONNECTING while a retry is pending. -/
inductive Emit
  | connecting
  | stateConnecting
  | stateOpen (isReconnect : Bool)
  | stateClosed (reconnectionStopped : Bool)
  | stateCloseInterim
  | message
  | error
deriving DecidableEq

/-- Externally visible effects of one callback: reports to the Observer via
setProps, plus operations on the transport capability. -/
inductive Eff
  | report (e : Emit)
  | wsNew (sid : Nat)
  | wsSend
  | wsClose (sid : Nat)
deriving DecidableEq

/-- Helper recognising transport creations among effects. -/
def isWsNew : Eff → Bool
  | Eff.wsNew _ => true
  | _ => false

/-- The backoff base of the second variant: reconnectInterval when the manager
has connected at least once, reconnectInterval * 3 otherwise (source line:
const baseInterval = everConnectedRef.current ? settings.reconnectInterval
: settings.reconnectInterval * 3). -/
def backoffBase (st : Settings) (everConnected : Bool) : Rat :=
  if everConnected then st.reconnectInterval else st.reconnectInterval * 3

/-- The reconnection delay: Math.min(baseInterval * Math.pow(reconnectDecay,
reconnectAttempts), maxReconnectInterval). -/
def backoffDelay (st : Settings) (everConnected : Bool) (attempts : Nat) : Rat :=
  min (backoffBase st everConnected * st.reconnectDecay ^ attempts) st.maxReconnectInterval

/-- The guard settings.maxReconnectAttempts && attempts >= max of
shouldAttemptReconnection.  In JS both null and 0 are falsy, so a configured
limit of 0 disables the check entirely; this is modelled faithfully. -/
def maxAttemptsReached (maxReconnectAttempts : Option Nat) (attempts : Nat) : Bool :=
  match maxReconnectAttempts with
  | none => false
  | some m => if m = 0 then false else decide (m ≤ attempts)

/-- The hard coded server unavailable close codes of shouldAttemptReconnection. -/
def serverUnavailableCodes : List Nat := [1006, 1002, 1011]

/-- Direct translation of shouldAttemptReconnection(event): forced closes never
reconnect; a reached (truthy) attempt limit stops; a never connected manager
seeing a server unavailable close code stops after 3 attempts; everything else
reconnects. -/
def shouldAttemptReconnection (st : Settings) (s : MState) (code : Nat) : Bool :=
  if s.forcedClose = true then false
  else if maxAttemptsReached st.maxReconnectAttempts s.reconnectAttempts = true then false
  else if s.everConnected = false ∧ serverUnavailableCodes.contains code = true then
    if 3 ≤ s.reconnectAttempts then false else true
  else true

/-- Direct translation of openConnection(reconnectAttempt) of the second
variant: an absent url returns immediately; otherwise the attempt flags are
set, a fresh (non reconnect) call reports connecting and resets the attempt
counter, a new WebSocket is created and the handshake watchdog is armed on it.
Note the second variant has no attempt limit check here (the first variant
did); the limit lives in shouldAttemptReconnection. -/
def openConnection (_st : Settings) (url : Option Nat) (reconnectAttempt : Bool) (s : MState) :
    MState × List Eff :=
  match url with
  | none => (s, [])
  | some _ =>
    let s1 := { s with isReconnectAttempt := reconnectAttempt,
                       currentReadyState := ReadyState.CONNECTING }
    let p : MState × List Eff :=
      if reconnectAttempt then (s1, [])
      else ({ s1 with reconnectAttempts := 0 },
            [Eff.report Emit.connecting, Eff.report Emit.stateConnecting])
    let sid := p.1.nextId
    ({ p.1 with wsRef := some sid, nextId := sid + 1, connectionTimeout := some sid },
     p.2 ++ [Eff.wsNew sid])

/-- Direct translation of ws.onopen: clear the handshake timer, set
everConnected, go to OPEN, reset the attempt counter, report the open event
carrying the pre-reset isReconnectAttempt flag, then reset that flag. -/
def onOpen (s : MState) : MState × List Eff :=
  ({ s with connectionTimeout := none,
            everConnected := true,
            currentReadyState := ReadyState.OPEN,
            reconnectAttempts := 0,
            isReconnectAttempt := false },
   [Eff.report (Emit.stateOpen s.isReconnectAttempt)])

/-- Direct translation of ws.onmessage: forward the payload, touch nothing. -/
def onMessage (s : MState) : MState × List Eff :=
  (s, [Eff.report Emit.message])

/-- Direct translation of ws.onerror: forward the error event, touch nothing. -/
def onError (s : MState) : MState × List Eff :=
  (s, [Eff.report Emit.error])

/-- Direct translation of ws.onclose of the second variant.  First the
handshake timer is cleared and the socket ref nulled (unconditionally, whatever
socket actually fired the callback).  A forced close reports one terminal close
and stops.  A refused reconnection reports one terminal close annotated with
reconnectionStopped and the exhaustion reason and stops.  Otherwise the manager
goes back to CONNECTING, reports connecting, additionally reports the interim
loss close when the attempt was neither a reconnect attempt nor flagged timed
out, and arms the retry timer with the backoff delay. -/
def onClose (st : Settings) (code : Nat) (s : MState) : MState × List Eff :=
  let s1 := { s with connectionTimeout := none, wsRef := none }
  if s1.forcedClose = true then
    ({ s1 with currentReadyState := ReadyState.CLOSED },
     [Eff.report (Emit.stateClosed false)])
  else if shouldAttemptReconnection st s1 code = false then
    ({ s1 with currentReadyState := ReadyState.CLOSED },
     [Eff.report (Emit.stateClosed true)])
  else
    let effs0 := [Eff.report Emit.connecting, Eff.report Emit.stateConnecting]
    let effs :=
      if s1.isReconnectAttempt = false ∧ s1.timedOut = false then
        effs0 ++ [Eff.report Emit.stateCloseInterim]
      else effs0
    ({ s1 with currentReadyState := ReadyState.CONNECTING,
               reconnectTimeout :=
                 some (backoffDelay st s1.everConnected s1.reconnectAttempts) },
     effs)

/-- The handshake watchdog firing.  If the timer was cleared it cannot fire.
Otherwise the callback body runs atomically: timedOutRef.current = true;
ws.close(); timedOutRef.current = false.  The close event of the socket is
delivered by a later task, so the net state visible to any later callback has
timedOut = false; the transient true value is unobservable on the JS event
loop.  The guard reports nothing to the Observer. -/
def connTimeoutFire (s : MState) : MState × List Eff :=
  match s.connectionTimeout with
  | none => (s, [])
  | some sid =>
    let s1 := { s with timedOut := true }
    let s2 := { s1 with timedOut := false, connectionTimeout := none }
    (s2, [Eff.wsClose sid])

/-- The retry timer firing.  If the timer was cleared it cannot fire.
Otherwise: reconnectAttemptsRef.current++; openConnection(true). -/
def reconnTimeoutFire (st : Settings) (url : Option Nat) (s : MState) : MState × List Eff :=
  match s.reconnectTimeout with
  | none => (s, [])
  | some _ =>
    openConnection st url true
      { s with reconnectTimeout := none, reconnectAttempts := s.reconnectAttempts + 1 }

/-- Direct translation of disconnect(): set forcedClose, clear both timers,
and close the live socket if any.  The component teardown (the useEffect
cleanups) calls exactly this function. -/
def disconnect (s : MState) : MState × List Eff :=
  ({ s with forcedClose := true, connectionTimeout := none, reconnectTimeout := none },
   s.wsRef.elim [] fun sid => [Eff.wsClose sid])

/-- Direct translation of sendMessage(message) of the second variant: an open
connection with a live socket forwards the payload to the transport and
returns; a closed connection that has connected at least once clears
forcedClose and calls openConnection(false); every other case (CONNECTING, or
CLOSED without a prior successful connection) does nothing beyond a debug log.
No branch writes anything to the Observer. -/
def sendMessage (st : Settings) (url : Option Nat) (s : MState) : MState × List Eff :=
  if s.currentReadyState = ReadyState.OPEN ∧ s.wsRef.isSome = true then
    (s, [Eff.wsSend])
  else if s.currentReadyState = ReadyState.CLOSED ∧ s.everConnected = true then
    openConnection st url false { s with forcedClose := false }
  else
    (s, [])

/-- The callback alphabet of the manager: every entry point that can mutate
the refs. -/
inductive Action
  | openConn (reconnectAttempt : Bool)
  | onopen
  | onmessage
  | onerror
  | onclose (code : Nat)
  | connectionTimeoutFired
  | reconnectTimerFired
  | disconnectCall
  | sendCall
deriving DecidableEq

/-- One callback boundary step of the manager. -/
def step (st : Settings) (url : Option Nat) : Action → MState → MState × List Eff
  | Action.openConn ra, s => openConnection st url ra s
  | Action.onopen, s => onOpen s
  | Action.onmessage, s => onMessage s
  | Action.onerror, s => onError s
  | Action.onclose code, s => onClose st code s
  | Action.connectionTimeoutFired, s => connTimeoutFire s
  | Action.reconnectTimerFired, s => reconnTimeoutFire st url s
  | Action.disconnectCall, s => disconnect s
  | Action.sendCall, s => sendMessage st url s

/-- Running a sequence of callbacks, keeping only the state. -/
def run (st : Settings) (url : Option Nat) : List Action → MState → MState
  | [], s => s
  | a :: rest, s => run st url rest (step st url a s).1

/- Concrete states used by counterexamples and witnesses. -/

/-- Settings with maxReconnectAttempts set to the number 0 (a set, non null
value that JS nevertheless treats as falsy). -/
def settingsMaxZero : Settings :=
  { defaultSettings with maxReconnectAttempts := some 0 }

/-- Settings with a positive attempt limit of 3. -/
def settingsMaxThree : Settings :=
  { defaultSettings with maxReconnectAttempts := some 3 }

/-- A manager that connected once, is OPEN on socket 0 and has already burned
5 reconnection attempts. -/
def sOpenFiveAttempts : MState :=
  { initialState with currentReadyState := ReadyState.OPEN, wsRef := some 0, nextId := 1,
                      everConnected := true, reconnectAttempts := 5 }

/-- A manager mid reconnection with its attempt counter exactly at the limit 3. -/
def sAtLimit : MState :=
  { initialState with currentReadyState := ReadyState.CONNECTING, wsRef := some 0, nextId := 1,
                      everConnected := true, reconnectAttempts := 3 }

/-- A fresh first attempt in flight: CONNECTING on socket 0, handshake watchdog
armed, not a reconnect attempt, never connected. -/
def sFreshAttempt : MState :=
  { initialState with currentReadyState := ReadyState.CONNECTING, wsRef := some 0,
                      connectionTimeout := some 0, nextId := 1 }

/-- A manager that is CLOSED and has connected at least once. -/
def sClosedEver : MState :=
  { initialState with everConnected := true }

/-- State after a first openConnection on a present url. -/
def sAttempt0 : MState := (openConnection defaultSettings (some 7) false initialState).1

/-- State after a second openConnection superseding the first: socket 1 is
current, socket 0 is stale but its callbacks can still be delivered. -/
def sAttempt1 : MState := (openConnection defaultSettings (some 7) false sAttempt0).1

/-- JS values relevant to the send prop effect: null and undefined are the two
values the effect refuses to transmit; every other payload is identified by
reference (strict equality on objects is reference identity). -/
inductive JSVal
  | undefined
  | null
  | val (ref : Nat)
deriving DecidableEq

/-- The guard send !== null && send !== undefined of the send useEffect. -/
def isSendable : JSVal → Bool
  | JSVal.undefined => false
  | JSVal.null => false
  | JSVal.val _ => true

/-- Direct translation of the send useEffect body (identical in all three
source variants): if prevSendRef.current === send, return; otherwise update
prevSendRef and call sendMessage exactly when the value is neither null nor
undefined.  The Bool records whether sendMessage — and hence any transmission
or recovery open — was invoked at all. -/
def sendEffect (prevSend send : JSVal) : JSVal × Bool :=
  if prevSend = send then (prevSend, false)
  else (send, isSendable send)

/-- Number of sendMessage invocations over a sequence of send prop updates. -/
def countSends (prevSend : JSVal) : List JSVal → Nat
  | [] => 0
  | v :: rest =>
    let r := sendEffect prevSend v
    (if r.2 = true then 1 else 0) + countSends r.1 rest

/- Helper lemmas: everConnected is written by onOpen only. -/

theorem openConnection_everConnected (st : Settings) (url : Option Nat) (ra : Bool) (s : MState) :
    ((openConnection st url ra s).1).everConnected = s.everConnected := by
  cases url <;> cases ra <;> simp [openConnection]

theorem onClose_everConnected (st : Settings) (code : Nat) (s : MState) :
    ((onClose st code s).1).everConnected = s.everConnected := by
  unfold onClose
  dsimp only
  split_ifs <;> rfl

theorem connTimeoutFire_everConnected (s : MState) :
    ((connTimeoutFire s).1).everConnected = s.everConnected := by
  cases h : s.connectionTimeout <;> simp [connTimeoutFire, h]

theorem reconnTimeoutFire_everConnected (st : Settings) (url : Option Nat) (s : MState) :
    ((reconnTimeoutFire st url s).1).everConnected = s.everConnected := by
  cases h : s.reconnectTimeout <;> simp [reconnTimeoutFire, h, openConnection_everConnected]

theorem sendMessage_everConnected (st : Settings) (url : Option Nat) (s : MState) :
    ((sendMessage st url s).1).everConnected = s.everConnected := by
  unfold sendMessage
  split_ifs <;> simp [openConnection_everConnected]

theorem step_everConnected_mono (st : Settings) (url : Option Nat) (a : Action) (s : MState) :
    s.everConnected ≤ ((step st url a s).1).everConnected := by
  cases a with
  | openConn ra => simp [step, openConnection_everConnected]
  | onopen => simp [step, onOpen]
  | onmessage => simp [step, onMessage]
  | onerror => simp [step, onError]
  | onclose code => simp [step, onClose_everConnected]
  | connectionTimeoutFired => simp [step, connTimeoutFire_everConnected]
  | reconnectTimerFired => simp [step, reconnTimeoutFire_everConnected]
  | disconnectCall => simp [step, disconnect]
  | sendCall => simp [step, sendMessage_everConnected]

theorem run_everConnected_mono (st : Settings) (url : Option Nat) (acts : List Action)
    (s : MState) : s.everConnected ≤ (run st url acts s).everConnected := by
  induction acts generalizing s with
  | nil => exact le_refl _
  | cons a rest ih =>
    simp only [run]
    exact le_trans (step_everConnected_mono st url a s) (ih _)

/- Helper lemma for the send prop deduplication bound. -/

theorem countSends_replicate_self (v : JSVal) (n : Nat) :
    countSends v (List.replicate n v) = 0 := by
  induction n with
  | zero => rfl
  | succ n ih => simpa [countSends, sendEffect, List.replicate] using ih

/-- C1 counterexample: with the manager CLOSED and never connected, sendMessage
reports nothing at all to the Observer, while the claim says the failure is
reported; and with the manager CLOSED after a successful connection, the
effects of sendMessage are exactly the connecting reports and the socket
creation of the recovery open, so no cannot-send signal is reported in that
branch either. -/
theorem sendMessage_missing_failure_report :
    (sendMessage defaultSettings (some 7) initialState = (initialState, []))
  ∧ ((sendMessage defaultSettings (some 7) sClosedEver).2
      = [Eff.report Emit.connecting, Eff.report Emit.stateConnecting, Eff.wsNew 0]) := by
  decide

/-- C1 amended: sendMessage forwards to the transport when OPEN with a live
socket; when CLOSED after at least one successful connection it clears
forcedClose and performs exactly one fresh open — new socket, fresh attempt
flags, connecting reports — with no cannot-send report; in every other state,
CONNECTING or CLOSED having never connected, it returns synchronously as a
complete no-op with no report and no reconnection. -/
theorem sendMessage_characterization (st : Settings) (u : Nat) (s : MState) :
    sendMessage st (some u) s =
      if s.currentReadyState = ReadyState.OPEN ∧ s.wsRef.isSome = true then
        (s, [Eff.wsSend])
      else if s.currentReadyState = ReadyState.CLOSED ∧ s.everConnected = true then
        ({ s with forcedClose := false, isReconnectAttempt := false,
                  currentReadyState := ReadyState.CONNECTING, reconnectAttempts := 0,
                  wsRef := some s.nextId, nextId := s.nextId + 1,
                  connectionTimeout := some s.nextId },
         [Eff.report Emit.connecting, Eff.report Emit.stateConnecting, Eff.wsNew s.nextId])
      else (s, []) := by
  by_cases h1 : s.currentReadyState = ReadyState.OPEN ∧ s.wsRef.isSome = true
  · simp [sendMessage, h1]
  · by_cases h2 : s.currentReadyState = ReadyState.CLOSED ∧ s.everConnected = true
    · simp [sendMessage, openConnection, h1, h2]
    · simp [sendMessage, h1, h2]

/-- C2 counterexample: maxReconnectAttempts set to 0 with 5 attempts already
made is an exhausted budget in the sense of the claim, yet the unexpected
close goes back to CONNECTING, arms a retry timer and reports no terminal
close annotated as exhausted — JS treats the configured 0 as falsy and skips
the limit check. -/
theorem onClose_maxAttempts_zero_retries :
    (onClose settingsMaxZero 1000 sOpenFiveAttempts).1.currentReadyState = ReadyState.CONNECTING
  ∧ (onClose settingsMaxZero 1000 sOpenFiveAttempts).1.reconnectTimeout ≠ none
  ∧ Eff.report (Emit.stateClosed true) ∉ (onClose settingsMaxZero 1000 sOpenFiveAttempts).2 := by
  decide

/-- C2 amended: for every unexpected (non forced) termination with the retry
budget exhausted — maxAttempts set to a nonzero value with attemptCount at or
past it, or the peer classified unreachable (never connected, close code among
1006, 1002 and 1011, at least 3 attempts made) — the manager moves to CLOSED,
reports exactly one terminal close annotated as retry-exhausted, clears the
handshake timer, arms no retry timer and creates no socket; nothing is thrown,
the step being a total function on states. -/
theorem onClose_exhausted_terminal (st : Settings) (code : Nat) (s : MState)
    (hforced : s.forcedClose = false)
    (hexh : maxAttemptsReached st.maxReconnectAttempts s.reconnectAttempts = true
            ∨ (s.everConnected = false ∧ serverUnavailableCodes.contains code = true
               ∧ 3 ≤ s.reconnectAttempts)) :
    onClose st code s =
      ({ s with connectionTimeout := none, wsRef := none,
                currentReadyState := ReadyState.CLOSED },
       [Eff.report (Emit.stateClosed true)]) := by
  have hs : shouldAttemptReconnection st
      { s with connectionTimeout := none, wsRef := none } code = false := by
    unfold shouldAttemptReconnection
    rcases hexh with h | ⟨h1, h2, h3⟩
    · simp [hforced, h]
    · have h2m : code ∈ serverUnavailableCodes := by simpa using h2
      by_cases hm : maxAttemptsReached st.maxReconnectAttempts s.reconnectAttempts = true
      · simp [hforced, hm]
      · simp [hforced, hm, h1, h2m, h3]
  unfold onClose
  dsimp only
  split_ifs with hf
  · exact absurd hf (by simp [hforced])
  · rfl

/-- C2 witness: the amended exhaustion theorem applied at the concrete limit 3
with 3 attempts already made. -/
theorem onClose_exhausted_terminal_witness :
    onClose settingsMaxThree 1000 sAtLimit =
      ({ sAtLimit with connectionTimeout := none, wsRef := none,
                       currentReadyState := ReadyState.CLOSED },
       [Eff.report (Emit.stateClosed true)]) :=
  onClose_exhausted_terminal settingsMaxThree 1000 sAtLimit rfl (Or.inl (by decide))

/-- C3: the reconnection delay equals min(base * decayFactor ^ attemptCount,
maxInterval), where the base is the configured interval once the endpoint has
completed a successful handshake and the larger multiple 3 * interval
otherwise; the delay never exceeds the cap and is non decreasing in the
attempt count. -/
theorem backoffDelay_spec (st : Settings) (ec : Bool) (n : Nat)
    (hbase : 0 < st.reconnectInterval) (hdecay : 1 ≤ st.reconnectDecay) :
    backoffDelay st ec n
        = min (backoffBase st ec * st.reconnectDecay ^ n) st.maxReconnectInterval
  ∧ backoffDelay st ec n ≤ st.maxReconnectInterval
  ∧ backoffDelay st ec n ≤ backoffDelay st ec (n + 1)
  ∧ backoffBase st true = st.reconnectInterval
  ∧ backoffBase st false = 3 * st.reconnectInterval
  ∧ st.reconnectInterval < backoffBase st false := by
  have hb : 0 < backoffBase st ec := by
    unfold backoffBase
    split_ifs
    · exact hbase
    · exact mul_pos hbase (by norm_num)
  have hpow : st.reconnectDecay ^ n ≤ st.reconnectDecay ^ (n + 1) :=
    pow_le_pow_right₀ hdecay (Nat.le_succ n)
  refine ⟨rfl, min_le_right _ _, ?_, rfl, ?_, ?_⟩
  · exact min_le_min (mul_le_mul_of_nonneg_left hpow hb.le) (le_refl _)
  · rw [show backoffBase st false = st.reconnectInterval * 3 from rfl]
    ring
  · rw [show backoffBase st false = st.reconnectInterval * 3 from rfl]
    linarith

/-- C3 witness: the backoff properties at the default settings, everConnected
true, attempt count 2. -/
theorem backoffDelay_spec_witness :
    backoffDelay defaultSettings true 2 ≤ defaultSettings.maxReconnectInterval
  ∧ backoffDelay defaultSettings true 2 ≤ backoffDelay defaultSettings true 3 :=
  ⟨(backoffDelay_spec defaultSettings true 2 (by norm_num [defaultSettings])
      (by norm_num [defaultSettings])).2.1,
   (backoffDelay_spec defaultSettings true 2 (by norm_num [defaultSettings])
      (by norm_num [defaultSettings])).2.2.1⟩

/-- C4: a successful transport open cancels the handshake timer, resets the
attempt counter to 0 and sets everConnectedAtLeastOnce to true; and
everConnected is monotone along every single callback and every callback
sequence of the manager, so once true it stays true for the lifetime of the
instance. -/
theorem onOpen_resets_everConnected_monotone :
    (∀ s : MState,
        (onOpen s).1.connectionTimeout = none
      ∧ (onOpen s).1.reconnectAttempts = 0
      ∧ (onOpen s).1.everConnected = true)
  ∧ (∀ (st : Settings) (url : Option Nat) (a : Action) (s : MState),
        s.everConnected ≤ ((step st url a s).1).everConnected)
  ∧ (∀ (st : Settings) (url : Option Nat) (acts : List Action) (s : MState),
        s.everConnected ≤ (run st url acts s).everConnected) :=
  ⟨fun _ => ⟨rfl, rfl, rfl⟩, step_everConnected_mono, run_everConnected_mono⟩

/-- C5: disconnect sets forcedClose, cancels both timers and closes the live
transport if any; it reports nothing itself; afterwards neither canceled timer
can fire (their callbacks are gone, modelled as identity steps), and the close
callback of the closed transport reports exactly one terminal close event,
moves to CLOSED and schedules no retry.  Component teardown calls this same
disconnect function. -/
theorem disconnect_terminal (st : Settings) (url : Option Nat) (code : Nat) (s : MState) :
    ((disconnect s).1.forcedClose = true)
  ∧ ((disconnect s).1.connectionTimeout = none)
  ∧ ((disconnect s).1.reconnectTimeout = none)
  ∧ ((disconnect s).2 = s.wsRef.elim [] fun sid => [Eff.wsClose sid])
  ∧ (∀ e : Emit, Eff.report e ∉ (disconnect s).2)
  ∧ (connTimeoutFire (disconnect s).1 = ((disconnect s).1, []))
  ∧ (reconnTimeoutFire st url (disconnect s).1 = ((disconnect s).1, []))
  ∧ (onClose st code (disconnect s).1 =
      ({ (disconnect s).1 with wsRef := none, currentReadyState := ReadyState.CLOSED },
       [Eff.report (Emit.stateClosed false)])) := by
  refine ⟨rfl, rfl, rfl, rfl, ?_, rfl, rfl, rfl⟩
  intro e
  cases h : s.wsRef <;> simp [disconnect, h]

/-- C6 (evidence for the code bug): on a fresh attempt the handshake watchdog
forces the socket closed while reporting nothing of its own, but it leaves
timedOut = false, because the callback resets the flag right after calling
close and the close event cannot be delivered before the callback returns; the
close path that then runs sees isReconnectAttempt = false and timedOut = false
and therefore reports the interim loss close event that the flag was meant to
suppress. -/
theorem timeout_interim_close_not_suppressed :
    (connTimeoutFire sFreshAttempt).2 = [Eff.wsClose 0]
  ∧ (connTimeoutFire sFreshAttempt).1.timedOut = false
  ∧ Eff.report Emit.stateCloseInterim
      ∈ (onClose defaultSettings 1006 (connTimeoutFire sFreshAttempt).1).2 := by
  decide

/-- C7: a transport error signal is forwarded to the Observer and nothing else
happens: the state — ConnectionState, every attempt field, both timers — is
returned unchanged and the only effect is the error report. -/
theorem onError_frame (st : Settings) (url : Option Nat) (s : MState) :
    step st url Action.onerror s = (s, [Eff.report Emit.error]) := rfl

/-- C8 counterexample: after a second openConnection supersedes the first,
socket 1 is current and socket 0 stale; delivering the close callback the
first attempt installed — whose body, like every close handler in the source,
never checks which socket it belongs to — still mutates the manager state, and
in particular clears the socket ref of the newer attempt. -/
theorem stale_close_mutates_state :
    sAttempt1.wsRef = some 1
  ∧ (onClose defaultSettings 1006 sAttempt1).1 ≠ sAttempt1
  ∧ (onClose defaultSettings 1006 sAttempt1).1.wsRef = none := by
  decide

/-- C8 amended: each call of openConnection with a url present creates exactly
one transport instance — one wsNew effect, one allocator increment — carrying
one open/close handler pair, but no attempt identifier exists: the close
handler unconditionally clears the current socket ref and handshake timer in
every state it runs in, so callbacks of superseded attempts are not discarded
before acting. -/
theorem attempt_transport_pairing (st : Settings) (u : Nat) (ra : Bool) (code : Nat)
    (s : MState) :
    ((openConnection st (some u) ra s).2.filter isWsNew = [Eff.wsNew s.nextId])
  ∧ ((openConnection st (some u) ra s).1.nextId = s.nextId + 1)
  ∧ ((onClose st code s).1.wsRef = none)
  ∧ ((onClose st code s).1.connectionTimeout = none) := by
  refine ⟨?_, ?_, ?_, ?_⟩
  · cases ra <;> simp [openConnection, isWsNew]
  · cases ra <;> simp [openConnection]
  · unfold onClose
    dsimp only
    split_ifs <;> rfl
  · unfold onClose
    dsimp only
    split_ifs <;> rfl

/-- C9: calling the connection opening function with an absent url is a
complete no-op: the state is returned exactly unchanged and no effect happens,
so no transport is created, no timer armed and nothing reported. -/
theorem openConnection_no_url (st : Settings) (ra : Bool) (s : MState) :
    openConnection st none ra s = (s, []) := rfl

/-- C10: a send prop update invokes sendMessage exactly when the value differs
from the previously seen one and is neither null nor undefined; null and
undefined never trigger a transmission or a recovery open; a run of identical
consecutive values causes at most one sendMessage call. -/
theorem send_prop_dedup :
    (∀ prevSend v : JSVal,
        ((sendEffect prevSend v).2 = true ↔ (prevSend ≠ v ∧ isSendable v = true)))
  ∧ (∀ prevSend : JSVal,
        (sendEffect prevSend JSVal.null).2 = false
      ∧ (sendEffect prevSend JSVal.undefined).2 = false)
  ∧ (∀ (prevSend v : JSVal) (n : Nat),
        countSends prevSend (List.replicate n v) ≤ 1) := by
  refine ⟨?_, ?_, ?_⟩
  · intro p v
    by_cases h : p = v <;> simp [sendEffect, h]
  · intro p
    refine ⟨?_, ?_⟩
    · by_cases h : p = JSVal.null <;> simp [sendEffect, isSendable, h]
    · by_cases h : p = JSVal.undefined <;> simp [sendEffect, isSendable, h]
  · intro p v n
    cases n with
    | zero => simp [countSends, List.replicate]
    | succ n =>
      by_cases h : p = v
      · subst h
        simp [List.replicate, countSends, sendEffect, countSends_replicate_self]
      · simp only [List.replicate, countSends, sendEffect, if_neg h,
          countSends_replicate_self]
        split_ifs <;> simp

end RWS
